import Mathlib

/-!
Shallow embedding of the session/frame lifecycle core found in
`src/xrt/state_trackers/oxr/oxr_session.c` (Monado-ALVR).

Modelling conventions:
* Machine scalars that the C code treats as opaque math values (`float`
  components of quaternions/vectors, seconds) are modelled as `ℚ`; times
  (`XrTime`, `int64_t` nanoseconds) as `Int`; counts as `Nat`.
* External collaborators (the pose-math library `math/m_api.h` and the
  time helpers) are not part of the sources; they are passed in as an
  explicit record of functions (`MathOps`), mirroring the spec's view of
  them as black-box collaborators.
* Calls into the compositor backend (`xrt_comp_*`) are recorded as an
  ordered event trace (`CompEvent`); session state-change notifications
  (`oxr_event_push_XrEventDataSessionStateChanged`) are recorded as an
  ordered list of states.
* A nullable C pointer/handle becomes `Option`; dereferencing a null
  pointer (which the C code does unguarded in one place) makes the whole
  operation return `none`, i.e. the embedded function is `Option`-valued
  where the C function can crash.
-/

/-- Session lifecycle states (`XrSessionState`) used by the core. -/
inductive XrSessionState
  | IDLE
  | READY
  | SYNCHRONIZED
  | VISIBLE
  | FOCUSED
  | STOPPING
  | EXITING
  deriving DecidableEq, Repr

/-- The result codes (`XrResult`) returned by the embedded entry points. -/
inductive XrResult
  | SUCCESS
  | FRAME_DISCARDED
  | ERROR_VALIDATION_FAILURE
  | ERROR_SESSION_RUNNING
  | ERROR_SESSION_NOT_RUNNING
  | ERROR_SESSION_NOT_STOPPING
  | ERROR_VIEW_CONFIGURATION_TYPE_UNSUPPORTED
  | ERROR_TIME_INVALID
  | ERROR_CALL_ORDER_INVALID
  | ERROR_LAYER_INVALID
  | ERROR_POSE_INVALID
  | ERROR_RUNTIME_FAILURE
  | ERROR_SWAPCHAIN_RECT_INVALID
  | ERROR_ENVIRONMENT_BLEND_MODE_UNSUPPORTED
  | ERROR_SIZE_INSUFFICIENT
  deriving DecidableEq, Repr

/-- `struct xrt_quat` (components as exact rationals). -/
structure xrt_quat where
  x : ℚ
  y : ℚ
  z : ℚ
  w : ℚ
  deriving DecidableEq, Repr, Inhabited

/-- `struct xrt_vec3`. -/
structure xrt_vec3 where
  x : ℚ
  y : ℚ
  z : ℚ
  deriving DecidableEq, Repr, Inhabited

/-- `struct xrt_pose`: orientation quaternion plus position vector. -/
structure xrt_pose where
  orientation : xrt_quat
  position : xrt_vec3
  deriving DecidableEq, Repr, Inhabited

/-- The pose-math and time collaborators (`math/m_api.h`, `util/u_time.h`).
They are external to the sources of this repository and are treated as
black boxes, exactly as the spec lists them under external collaborators. -/
structure MathOps where
  math_quat_validate : xrt_quat → Bool
  math_vec3_validate : xrt_vec3 → Bool
  math_pose_invert : xrt_pose → xrt_pose
  math_pose_transform : xrt_pose → xrt_pose → xrt_pose
  math_quat_integrate_velocity : xrt_quat → xrt_vec3 → ℚ → xrt_quat
  time_ns_to_s : Int → ℚ

/-- The swapchain state a layer's `subImage.swapchain` handle points at:
`sc->released_index` (with `-1` as the "none released" sentinel) and
`sc->swapchain->num_images`. -/
structure oxr_swapchain where
  released_index : Int
  num_images : Nat
  deriving DecidableEq, Repr, Inhabited

/-- An `XrSpace` handle: `none` models `XR_NULL_HANDLE`.  Frame-end only
ever checks the handle for null, so the pointee is not modelled. -/
abbrev XrSpace := Option Unit

/-- `XrSwapchainSubImage`: nullable swapchain handle, image rectangle
offset and array index. -/
structure XrSwapchainSubImage where
  swapchain : Option oxr_swapchain
  imageRect_offset_x : Int
  imageRect_offset_y : Int
  imageArrayIndex : Nat
  deriving DecidableEq, Repr, Inhabited

/-- `XrCompositionLayerQuad` (the fields frame-end reads). -/
structure XrCompositionLayerQuad where
  space : XrSpace
  pose : xrt_pose
  subImage : XrSwapchainSubImage
  deriving DecidableEq, Repr, Inhabited

/-- `struct xrt_fov`. -/
structure xrt_fov where
  angle_left : ℚ
  angle_right : ℚ
  angle_up : ℚ
  angle_down : ℚ
  deriving DecidableEq, Repr, Inhabited

/-- `XrCompositionLayerProjectionView`. -/
structure XrCompositionLayerProjectionView where
  pose : xrt_pose
  fov : xrt_fov
  subImage : XrSwapchainSubImage
  deriving DecidableEq, Repr, Inhabited

/-- `XrCompositionLayerProjection`; `viewCount` is the length of `views`. -/
structure XrCompositionLayerProjection where
  space : XrSpace
  views : List XrCompositionLayerProjectionView
  deriving DecidableEq, Repr, Inhabited

/-- A composition layer together with its `type` tag; `unsupported`
stands for any `XrStructureType` other than quad and projection. -/
inductive XrCompositionLayer
  | projection (p : XrCompositionLayerProjection)
  | quad (q : XrCompositionLayerQuad)
  | unsupported
  deriving DecidableEq, Repr, Inhabited

/-- `XrEnvironmentBlendMode`; `UNKNOWN v` stands for any enum value other
than the three recognized modes. -/
inductive XrEnvironmentBlendMode
  | OPAQUE
  | ADDITIVE
  | ALPHA_BLEND
  | UNKNOWN (value : Nat)
  deriving DecidableEq, Repr

/-- `XrFrameEndInfo`: display time, blend mode and the layer list.
`layers = none` models a NULL `layers` pointer; a `none` inside the list
models a NULL layer pointer.  `layerCount` is carried separately, as in C,
because the count-zero check happens before the pointer is examined. -/
structure XrFrameEndInfo where
  displayTime : Int
  environmentBlendMode : XrEnvironmentBlendMode
  layerCount : Nat
  layers : Option (List (Option XrCompositionLayer))
  deriving DecidableEq, Repr

/-- The session fields that the embedded entry points read or write.
`headless` models `sess->compositor == NULL`; `view_config_type` models
`sess->sys->view_config_type`; `hmd_blend_mode` models the advertised
blend-mode bitmask `sess->sys->head->hmd->blend_mode`;
`tracking_origin_offset` models
`sess->sys->head->tracking_origin->offset`. -/
structure oxr_session where
  state : XrSessionState
  frame_started : Bool
  exiting : Bool
  headless : Bool
  view_config_type : Nat
  hmd_blend_mode : Nat
  static_prediction_s : ℚ
  tracking_origin_offset : xrt_pose
  deriving DecidableEq, Repr

/-- One call into the compositor backend (`xrt_comp_*`), with the
arguments that the core computes.  Layer submissions carry the layer and
the transformed pose(s) actually handed to the compositor. -/
inductive CompEvent
  | beginSession (view_type : Nat)
  | endSession
  | beginFrame
  | discardFrame
  | layerBegin (blend_mode : Nat)
  | layerQuad (q : XrCompositionLayerQuad) (pose : xrt_pose)
  | layerStereo (p : XrCompositionLayerProjection) (pose0 pose1 : xrt_pose)
  | layerCommit
  deriving DecidableEq, Repr

/-- The observable outcome of one entry point: result code, updated
session, the state-change notifications pushed (in order) and the
compositor calls issued (in order). -/
structure StepOut where
  res : XrResult
  sess : oxr_session
  notifs : List XrSessionState
  comp : List CompEvent
  deriving DecidableEq, Repr

/-- `is_running` from `oxr_session.c`. -/
def is_running : XrSessionState → Bool
  | .SYNCHRONIZED => true
  | .VISIBLE => true
  | .FOCUSED => true
  | .STOPPING => true
  | _ => false

/-- `should_render` from `oxr_session.c`. -/
def should_render : XrSessionState → Bool
  | .VISIBLE => true
  | .FOCUSED => true
  | .STOPPING => true
  | _ => false

/-- Modelled from the spec: `oxr_session_success_result` is declared in
`oxr_objects.h`, which is not among the sources; per the spec every
non-failing entry point reports plain success. -/
def oxr_session_success_result (_sess : oxr_session) : XrResult :=
  XrResult.SUCCESS

/-- `oxr_session_change_state`: push one state-change notification and
set the session state. -/
def oxr_session_change_state (sess : oxr_session) (notifs : List XrSessionState)
    (s : XrSessionState) : oxr_session × List XrSessionState :=
  ({ sess with state := s }, notifs ++ [s])

/-- `oxr_session_begin`. -/
def oxr_session_begin (sess : oxr_session) (primaryViewConfigurationType : Nat) :
    StepOut :=
  if is_running sess.state then
    { res := .ERROR_SESSION_RUNNING, sess := sess, notifs := [], comp := [] }
  else if !sess.headless &&
      primaryViewConfigurationType != sess.view_config_type then
    { res := .ERROR_VIEW_CONFIGURATION_TYPE_UNSUPPORTED, sess := sess,
      notifs := [], comp := [] }
  else
    let comp : List CompEvent :=
      if sess.headless then [] else
        [CompEvent.beginSession primaryViewConfigurationType]
    let (sess1, n1) := oxr_session_change_state sess [] .SYNCHRONIZED
    let (sess2, n2) := oxr_session_change_state sess1 n1 .VISIBLE
    let (sess3, n3) := oxr_session_change_state sess2 n2 .FOCUSED
    { res := oxr_session_success_result sess3, sess := sess3, notifs := n3,
      comp := comp }

/-- `oxr_session_end`. -/
def oxr_session_end (sess : oxr_session) : StepOut :=
  if !is_running sess.state then
    { res := .ERROR_SESSION_NOT_RUNNING, sess := sess, notifs := [], comp := [] }
  else if sess.state ≠ .STOPPING then
    { res := .ERROR_SESSION_NOT_STOPPING, sess := sess, notifs := [], comp := [] }
  else
    let (sess', comp) :=
      if !sess.headless then
        let (sessd, compd) :=
          if sess.frame_started then
            ({ sess with frame_started := false }, [CompEvent.discardFrame])
          else
            (sess, [])
        (sessd, compd ++ [CompEvent.endSession])
      else
        (sess, [])
    let (sess1, n1) := oxr_session_change_state sess' [] .IDLE
    let (sess2, n2) :=
      if sess1.exiting then
        oxr_session_change_state sess1 n1 .EXITING
      else
        oxr_session_change_state sess1 n1 .READY
    { res := oxr_session_success_result sess2, sess := sess2, notifs := n2,
      comp := comp }

/-- `oxr_session_request_exit`. -/
def oxr_session_request_exit (sess : oxr_session) : StepOut :=
  if !is_running sess.state then
    { res := .ERROR_SESSION_NOT_RUNNING, sess := sess, notifs := [], comp := [] }
  else
    let (sess1, n1) :=
      if sess.state = .FOCUSED then
        oxr_session_change_state sess [] .VISIBLE
      else
        (sess, [])
    let (sess2, n2) :=
      if sess1.state = .VISIBLE then
        oxr_session_change_state sess1 n1 .SYNCHRONIZED
      else
        (sess1, n1)
    let (sess3, n3) := oxr_session_change_state sess2 n2 .STOPPING
    let sess4 := { sess3 with exiting := true }
    { res := oxr_session_success_result sess4, sess := sess4, notifs := n3,
      comp := [] }

/-- `oxr_session_frame_begin`. -/
def oxr_session_frame_begin (sess : oxr_session) : StepOut :=
  if !is_running sess.state then
    { res := .ERROR_SESSION_NOT_RUNNING, sess := sess, notifs := [], comp := [] }
  else
    let (ret, sess', disc) :=
      if sess.frame_started then
        (XrResult.FRAME_DISCARDED, sess,
          if sess.headless then ([] : List CompEvent)
          else [CompEvent.discardFrame])
      else
        (oxr_session_success_result sess,
          { sess with frame_started := true }, [])
    { res := ret, sess := sess', notifs := [],
      comp := disc ++ (if sess.headless then [] else [CompEvent.beginFrame]) }

/-- `XRT_BLEND_MODE_OPAQUE`.  Modelled from the spec: the `xrt_blend_mode`
bit values live in `xrt_defines.h`, which is not among the sources; the
spec describes the device's supported modes as an advertised bitmask
tested with bitwise and, so the three modes are distinct single bits. -/
def XRT_BLEND_MODE_OPAQUE : Nat := 1

/-- `XRT_BLEND_MODE_ADDITIVE` (see `XRT_BLEND_MODE_OPAQUE`). -/
def XRT_BLEND_MODE_ADDITIVE : Nat := 2

/-- `XRT_BLEND_MODE_ALPHA_BLEND` (see `XRT_BLEND_MODE_OPAQUE`). -/
def XRT_BLEND_MODE_ALPHA_BLEND : Nat := 4

/-- `oxr_blend_mode_to_xrt`: the three recognized modes map to their xrt
bits, everything else to `0`. -/
def oxr_blend_mode_to_xrt : XrEnvironmentBlendMode → Nat
  | .OPAQUE => XRT_BLEND_MODE_OPAQUE
  | .ADDITIVE => XRT_BLEND_MODE_ADDITIVE
  | .ALPHA_BLEND => XRT_BLEND_MODE_ALPHA_BLEND
  | .UNKNOWN _ => 0

/-- `verify_space`: reject a null space handle with
`XR_ERROR_VALIDATION_FAILURE`. -/
def verify_space (space : XrSpace) : XrResult :=
  if space = none then .ERROR_VALIDATION_FAILURE else .SUCCESS

/-- `verify_quad_layer`.  Check order follows the C code: null swapchain,
then `verify_space`, then quat/vec3 validity, then released index and its
bound, then the image-rect offset bounds. -/
def verify_quad_layer (M : MathOps) (quad : XrCompositionLayerQuad) : XrResult :=
  match quad.subImage.swapchain with
  | none => .ERROR_LAYER_INVALID
  | some sc =>
    let ret := verify_space quad.space
    if ret ≠ .SUCCESS then ret
    else if !M.math_quat_validate quad.pose.orientation then
      .ERROR_POSE_INVALID
    else if !M.math_vec3_validate quad.pose.position then
      .ERROR_POSE_INVALID
    else if sc.released_index = -1 then
      .ERROR_LAYER_INVALID
    else if (sc.num_images : Int) ≤ sc.released_index then
      .ERROR_RUNTIME_FAILURE
    else if quad.subImage.imageRect_offset_x < 0 ∨
        quad.subImage.imageRect_offset_y < 0 then
      .ERROR_SWAPCHAIN_RECT_INVALID
    else if 1 ≤ quad.subImage.imageRect_offset_x ∨
        1 ≤ quad.subImage.imageRect_offset_y then
      .ERROR_SWAPCHAIN_RECT_INVALID
    else
      .SUCCESS

/-- The per-view body of `verify_projection_layer`'s loop.  The C code
dereferences `proj->views[i].subImage.swapchain` with no null check, so a
null swapchain handle here yields `none` (undefined behaviour), not an
error code. -/
def verify_projection_view (M : MathOps) (v : XrCompositionLayerProjectionView) :
    Option XrResult :=
  if !M.math_quat_validate v.pose.orientation then
    some .ERROR_POSE_INVALID
  else if !M.math_vec3_validate v.pose.position then
    some .ERROR_POSE_INVALID
  else
    match v.subImage.swapchain with
    | none => none
    | some sc =>
      if sc.released_index = -1 then
        some .ERROR_LAYER_INVALID
      else if (sc.num_images : Int) ≤ sc.released_index then
        some .ERROR_RUNTIME_FAILURE
      else
        some .SUCCESS

/-- The loop of `verify_projection_layer` over the views, stopping at the
first view that does not verify. -/
def verify_projection_views (M : MathOps) :
    List XrCompositionLayerProjectionView → Option XrResult
  | [] => some .SUCCESS
  | v :: rest =>
    match verify_projection_view M v with
    | none => none
    | some r =>
      if r = .SUCCESS then verify_projection_views M rest else some r

/-- `verify_projection_layer`: space check, view-count check, then the
per-view loop. -/
def verify_projection_layer (M : MathOps) (proj : XrCompositionLayerProjection) :
    Option XrResult :=
  let ret := verify_space proj.space
  if ret ≠ .SUCCESS then some ret
  else if proj.views.length ≠ 2 then some .ERROR_VALIDATION_FAILURE
  else verify_projection_views M proj.views

/-- The `switch (layer->type)` of the verification loop in
`oxr_session_frame_end`: quad and projection dispatch to their verifiers,
any other type is `XR_ERROR_LAYER_INVALID`. -/
def verify_layer (M : MathOps) : XrCompositionLayer → Option XrResult
  | .projection p => verify_projection_layer M p
  | .quad q => some (verify_quad_layer M q)
  | .unsupported => some .ERROR_LAYER_INVALID

/-- The verification loop of `oxr_session_frame_end`: a NULL layer
pointer is `XR_ERROR_LAYER_INVALID`; otherwise verify each layer in order
and stop at the first non-success result. -/
def verify_layers (M : MathOps) : List (Option XrCompositionLayer) → Option XrResult
  | [] => some .SUCCESS
  | none :: _ => some .ERROR_LAYER_INVALID
  | some layer :: rest =>
    match verify_layer M layer with
    | none => none
    | some r =>
      if r = .SUCCESS then verify_layers M rest else some r

/-- `submit_quad_layer`: transform the quad's pose by `inv_offset` and
issue the compositor quad-layer call. -/
def submit_quad_layer (M : MathOps) (inv_offset : xrt_pose)
    (quad : XrCompositionLayerQuad) : CompEvent :=
  CompEvent.layerQuad quad (M.math_pose_transform inv_offset quad.pose)

/-- `submit_projection_layer`: transform both view poses by `inv_offset`
and issue the compositor stereo-projection call. -/
def submit_projection_layer (M : MathOps) (inv_offset : xrt_pose)
    (proj : XrCompositionLayerProjection) : CompEvent :=
  CompEvent.layerStereo proj
    (M.math_pose_transform inv_offset (proj.views.getD 0 default).pose)
    (M.math_pose_transform inv_offset (proj.views.getD 1 default).pose)

/-- The submission loop of `oxr_session_frame_end`.  The `assert`s on a
NULL layer and an invalid type are unreachable after verification, so
those cases submit nothing. -/
def submit_layers (M : MathOps) (inv_offset : xrt_pose) :
    List (Option XrCompositionLayer) → List CompEvent
  | [] => []
  | none :: rest => submit_layers M inv_offset rest
  | some (.projection p) :: rest =>
    submit_projection_layer M inv_offset p :: submit_layers M inv_offset rest
  | some (.quad q) :: rest =>
    submit_quad_layer M inv_offset q :: submit_layers M inv_offset rest
  | some .unsupported :: rest => submit_layers M inv_offset rest

/-- `oxr_session_frame_end`.  Returns `none` when the C code would
dereference a null swapchain handle inside projection-layer verification
(undefined behaviour); otherwise `some` of the observable outcome. -/
def oxr_session_frame_end (M : MathOps) (sess : oxr_session)
    (frameEndInfo : XrFrameEndInfo) : Option StepOut :=
  if !is_running sess.state then
    some { res := .ERROR_SESSION_NOT_RUNNING, sess := sess, notifs := [],
           comp := [] }
  else if !sess.frame_started then
    some { res := .ERROR_CALL_ORDER_INVALID, sess := sess, notifs := [],
           comp := [] }
  else if frameEndInfo.displayTime ≤ 0 then
    some { res := .ERROR_TIME_INVALID, sess := sess, notifs := [], comp := [] }
  else if sess.headless then
    some { res := oxr_session_success_result
             { sess with frame_started := false },
           sess := { sess with frame_started := false }, notifs := [],
           comp := [] }
  else
    if oxr_blend_mode_to_xrt frameEndInfo.environmentBlendMode = 0 then
      some { res := .ERROR_VALIDATION_FAILURE, sess := sess, notifs := [],
             comp := [] }
    else if oxr_blend_mode_to_xrt frameEndInfo.environmentBlendMode &&&
        sess.hmd_blend_mode = 0 then
      some { res := .ERROR_ENVIRONMENT_BLEND_MODE_UNSUPPORTED, sess := sess,
             notifs := [], comp := [] }
    else if frameEndInfo.layerCount = 0 then
      some { res := oxr_session_success_result
               { sess with frame_started := false },
             sess := { sess with frame_started := false }, notifs := [],
             comp := [CompEvent.discardFrame] }
    else
      match frameEndInfo.layers with
      | none =>
        some { res := .ERROR_LAYER_INVALID, sess := sess, notifs := [],
               comp := [] }
      | some layers =>
        match verify_layers M layers with
        | none => none
        | some r =>
          if r ≠ .SUCCESS then
            some { res := r, sess := sess, notifs := [], comp := [] }
          else
            some { res := oxr_session_success_result
                     { sess with frame_started := false },
                   sess := { sess with frame_started := false }, notifs := [],
                   comp := CompEvent.layerBegin
                       (oxr_blend_mode_to_xrt
                         frameEndInfo.environmentBlendMode) ::
                     (submit_layers M
                         (M.math_pose_invert sess.tracking_origin_offset)
                         layers ++
                       [CompEvent.layerCommit]) }

/-- The most recent relation sample returned by
`oxr_xdev_get_relation_at` for the head device: pose, angular velocity
and whether `XRT_SPACE_RELATION_ANGULAR_VELOCITY_VALID_BIT` is set. -/
structure xrt_space_relation where
  pose : xrt_pose
  angular_velocity : xrt_vec3
  angular_velocity_valid : Bool
  deriving DecidableEq, Repr

/-- `oxr_session_get_view_pose_at`.  The device query is external; its
outputs (`relation`, `timestamp`) are inputs here, as is the process-wide
`OXR_DYNAMIC_PREDICTION` debug option. -/
def oxr_session_get_view_pose_at (M : MathOps) (dynamic_prediction : Bool)
    (sess : oxr_session) (at_time : Int) (relation : xrt_space_relation)
    (timestamp : Int) : xrt_pose :=
  let pose := relation.pose
  if relation.angular_velocity_valid then
    let ns_diff : Int := at_time - timestamp
    let interval : ℚ :=
      if dynamic_prediction then
        M.time_ns_to_s ns_diff + sess.static_prediction_s
      else
        sess.static_prediction_s
    let predicted := M.math_quat_integrate_velocity pose.orientation
      relation.angular_velocity interval
    { pose with orientation := predicted }
  else
    pose

/-- A concrete instantiation of the external math collaborators, used for
evaluating the embedded operations on concrete inputs. -/
def M0 : MathOps where
  math_quat_validate := fun _ => true
  math_vec3_validate := fun _ => true
  math_pose_invert := fun p => p
  math_pose_transform := fun _ p => p
  math_quat_integrate_velocity := fun q _ _ => q
  time_ns_to_s := fun n => (n : ℚ) / 1000000000

/-- A concrete running, non-headless session with an open frame. -/
def sessF : oxr_session :=
  { state := .FOCUSED, frame_started := true, exiting := false,
    headless := false, view_config_type := 2,
    hmd_blend_mode := XRT_BLEND_MODE_OPAQUE,
    static_prediction_s := 0, tracking_origin_offset := default }

/-- A concrete non-running, non-headless session (state READY). -/
def sessR : oxr_session :=
  { state := .READY, frame_started := false, exiting := false,
    headless := false, view_config_type := 2,
    hmd_blend_mode := XRT_BLEND_MODE_OPAQUE,
    static_prediction_s := 0, tracking_origin_offset := default }

/-- A concrete stopping session with exit requested. -/
def sessStop : oxr_session :=
  { state := .STOPPING, frame_started := false, exiting := true,
    headless := false, view_config_type := 2,
    hmd_blend_mode := XRT_BLEND_MODE_OPAQUE,
    static_prediction_s := 0, tracking_origin_offset := default }

/-- C2 counterexample: a non-running, non-headless session given a
view-configuration type different from the system's fails with
`XR_ERROR_VIEW_CONFIGURATION_TYPE_UNSUPPORTED`, so "begin fails with
SessionAlreadyRunning iff running, otherwise succeeds" is false: here it
neither fails with SessionAlreadyRunning nor succeeds. -/
theorem oxr_session_begin_not_always_success :
    is_running sessR.state = false ∧
    (oxr_session_begin sessR 3).res =
      XrResult.ERROR_VIEW_CONFIGURATION_TYPE_UNSUPPORTED ∧
    (oxr_session_begin sessR 3).res ≠ XrResult.SUCCESS ∧
    (oxr_session_begin sessR 3).res ≠ XrResult.ERROR_SESSION_RUNNING ∧
    (oxr_session_begin sessR 3).sess.state ≠ XrSessionState.FOCUSED := by
  decide

/-- C2 (amended): `begin` fails with SessionAlreadyRunning iff the
session was already running; otherwise, if the session has a compositor
and the requested view-configuration type differs from the system's, it
fails with ViewConfigUnsupported and changes nothing; otherwise it
succeeds, the state ends at FOCUSED, and exactly the three state-change
notifications SYNCHRONIZED, VISIBLE, FOCUSED are emitted in order. -/
theorem oxr_session_begin_spec (sess : oxr_session) (vt : Nat) :
    ((oxr_session_begin sess vt).res = XrResult.ERROR_SESSION_RUNNING ↔
      is_running sess.state = true) ∧
    (is_running sess.state = false → sess.headless = false →
      vt ≠ sess.view_config_type →
      oxr_session_begin sess vt =
        { res := .ERROR_VIEW_CONFIGURATION_TYPE_UNSUPPORTED, sess := sess,
          notifs := [], comp := [] }) ∧
    (is_running sess.state = false →
      (sess.headless = true ∨ vt = sess.view_config_type) →
      (oxr_session_begin sess vt).res = XrResult.SUCCESS ∧
      (oxr_session_begin sess vt).sess.state = XrSessionState.FOCUSED ∧
      (oxr_session_begin sess vt).notifs =
        [XrSessionState.SYNCHRONIZED, XrSessionState.VISIBLE,
          XrSessionState.FOCUSED]) := by
  cases hrun : is_running sess.state with
  | true =>
    simp [oxr_session_begin, hrun]
  | false =>
    cases hh : sess.headless with
    | true =>
      simp [oxr_session_begin, hrun, hh, oxr_session_change_state,
        oxr_session_success_result]
    | false =>
      by_cases hvt : vt = sess.view_config_type
      · simp [oxr_session_begin, hrun, hh, hvt, oxr_session_change_state,
          oxr_session_success_result]
      · simp [oxr_session_begin, hrun, hh, hvt, oxr_session_change_state,
          oxr_session_success_result]

/-- Witness for the amended C2 theorem at the concrete session `sessR`
and the matching view-configuration type `2`. -/
theorem oxr_session_begin_spec_witness :
    ((oxr_session_begin sessR 2).res = XrResult.ERROR_SESSION_RUNNING ↔
      is_running sessR.state = true) ∧
    (is_running sessR.state = false → sessR.headless = false →
      2 ≠ sessR.view_config_type →
      oxr_session_begin sessR 2 =
        { res := .ERROR_VIEW_CONFIGURATION_TYPE_UNSUPPORTED, sess := sessR,
          notifs := [], comp := [] }) ∧
    (is_running sessR.state = false →
      (sessR.headless = true ∨ 2 = sessR.view_config_type) →
      (oxr_session_begin sessR 2).res = XrResult.SUCCESS ∧
      (oxr_session_begin sessR 2).sess.state = XrSessionState.FOCUSED ∧
      (oxr_session_begin sessR 2).notifs =
        [XrSessionState.SYNCHRONIZED, XrSessionState.VISIBLE,
          XrSessionState.FOCUSED]) :=
  oxr_session_begin_spec sessR 2

/-- C3: `end` fails with SessionNotRunning if the session is not running,
fails with SessionNotStopping if running but not STOPPING, and otherwise
succeeds with the final state EXITING iff exit was requested, else READY,
pushing the notifications IDLE then EXITING/READY, one per step. -/
theorem oxr_session_end_spec (sess : oxr_session) :
    (is_running sess.state = false →
      oxr_session_end sess =
        { res := .ERROR_SESSION_NOT_RUNNING, sess := sess, notifs := [],
          comp := [] }) ∧
    (is_running sess.state = true → sess.state ≠ XrSessionState.STOPPING →
      oxr_session_end sess =
        { res := .ERROR_SESSION_NOT_STOPPING, sess := sess, notifs := [],
          comp := [] }) ∧
    (sess.state = XrSessionState.STOPPING →
      (oxr_session_end sess).res = XrResult.SUCCESS ∧
      ((oxr_session_end sess).sess.state = XrSessionState.EXITING ↔
        sess.exiting = true) ∧
      (sess.exiting = false →
        (oxr_session_end sess).sess.state = XrSessionState.READY) ∧
      (oxr_session_end sess).notifs =
        [XrSessionState.IDLE,
          if sess.exiting then XrSessionState.EXITING
          else XrSessionState.READY]) := by
  refine ⟨?_, ?_, ?_⟩
  · intro h
    simp [oxr_session_end, h]
  · intro h1 h2
    simp [oxr_session_end, h1, h2]
  · intro h
    have hrun : is_running sess.state = true := by rw [h]; rfl
    cases he : sess.exiting <;> cases hh : sess.headless <;>
      cases hf : sess.frame_started <;>
      simp [oxr_session_end, is_running, hrun, h, he, hh, hf,
        oxr_session_change_state, oxr_session_success_result]

/-- Witness for the C3 theorem at the concrete stopping session
`sessStop` (exit requested). -/
theorem oxr_session_end_spec_witness :
    (is_running sessStop.state = false →
      oxr_session_end sessStop =
        { res := .ERROR_SESSION_NOT_RUNNING, sess := sessStop, notifs := [],
          comp := [] }) ∧
    (is_running sessStop.state = true →
      sessStop.state ≠ XrSessionState.STOPPING →
      oxr_session_end sessStop =
        { res := .ERROR_SESSION_NOT_STOPPING, sess := sessStop, notifs := [],
          comp := [] }) ∧
    (sessStop.state = XrSessionState.STOPPING →
      (oxr_session_end sessStop).res = XrResult.SUCCESS ∧
      ((oxr_session_end sessStop).sess.state = XrSessionState.EXITING ↔
        sessStop.exiting = true) ∧
      (sessStop.exiting = false →
        (oxr_session_end sessStop).sess.state = XrSessionState.READY) ∧
      (oxr_session_end sessStop).notifs =
        [XrSessionState.IDLE,
          if sessStop.exiting then XrSessionState.EXITING
          else XrSessionState.READY]) :=
  oxr_session_end_spec sessStop

/-- C7: on a running session, `beginFrame` with a frame already open
returns the non-error FrameDiscarded status and leaves `frame_started`
true (discarding the previous frame at the compositor when one exists);
with no frame open it returns plain success and sets `frame_started`. -/
theorem oxr_session_frame_begin_spec (sess : oxr_session)
    (hrun : is_running sess.state = true) :
    (sess.frame_started = true →
      (oxr_session_frame_begin sess).res = XrResult.FRAME_DISCARDED ∧
      (oxr_session_frame_begin sess).sess.frame_started = true ∧
      (sess.headless = false →
        CompEvent.discardFrame ∈ (oxr_session_frame_begin sess).comp)) ∧
    (sess.frame_started = false →
      (oxr_session_frame_begin sess).res = XrResult.SUCCESS ∧
      (oxr_session_frame_begin sess).sess.frame_started = true) := by
  cases hf : sess.frame_started <;> cases hh : sess.headless <;>
    simp [oxr_session_frame_begin, hrun, hf, hh, oxr_session_success_result]

/-- Witness for the C7 theorem at the concrete session `sessF`, which is
running with an open frame. -/
theorem oxr_session_frame_begin_spec_witness :
    (sessF.frame_started = true →
      (oxr_session_frame_begin sessF).res = XrResult.FRAME_DISCARDED ∧
      (oxr_session_frame_begin sessF).sess.frame_started = true ∧
      (sessF.headless = false →
        CompEvent.discardFrame ∈ (oxr_session_frame_begin sessF).comp)) ∧
    (sessF.frame_started = false →
      (oxr_session_frame_begin sessF).res = XrResult.SUCCESS ∧
      (oxr_session_frame_begin sessF).sess.frame_started = true) :=
  oxr_session_frame_begin_spec sessF (by decide)

/-- A concrete headless session in STOPPING state with an open frame. -/
def sessHL : oxr_session :=
  { state := .STOPPING, frame_started := true, exiting := true,
    headless := true, view_config_type := 2,
    hmd_blend_mode := XRT_BLEND_MODE_OPAQUE,
    static_prediction_s := 0, tracking_origin_offset := default }

/-- C4 counterexample: on a headless session (no compositor) in STOPPING
state with an open frame, `end` succeeds but leaves `frame_started`
true, because the discard-and-clear in `oxr_session_end` sits inside the
compositor null-check. -/
theorem oxr_session_end_headless_keeps_frame_started :
    sessHL.headless = true ∧
    sessHL.frame_started = true ∧
    (oxr_session_end sessHL).res = XrResult.SUCCESS ∧
    (oxr_session_end sessHL).sess.frame_started = true := by
  decide

/-- C4 (amended): after any successful `end` on a session with a
compositor, `frame_started` is false (an open frame having been
discarded at the compositor first); after any successful `endFrame`
(headless included) `frame_started` is false.  A successful `end` on a
headless session leaves `frame_started` unchanged. -/
theorem frame_started_false_after_frame_completion :
    (∀ sess : oxr_session, sess.headless = false →
      (oxr_session_end sess).res = XrResult.SUCCESS →
      (oxr_session_end sess).sess.frame_started = false ∧
      (sess.frame_started = true →
        CompEvent.discardFrame ∈ (oxr_session_end sess).comp)) ∧
    (∀ (M : MathOps) (sess : oxr_session) (fe : XrFrameEndInfo)
        (out : StepOut),
      oxr_session_frame_end M sess fe = some out →
      out.res = XrResult.SUCCESS →
      out.sess.frame_started = false) := by
  constructor
  · intro sess hh hres
    cases hrun : is_running sess.state with
    | false => simp [oxr_session_end, hrun] at hres
    | true =>
      by_cases hst : sess.state = XrSessionState.STOPPING
      · cases hf : sess.frame_started <;> cases he : sess.exiting <;>
          simp [oxr_session_end, is_running, hrun, hst, hh, hf, he,
            oxr_session_change_state, oxr_session_success_result]
      · simp [oxr_session_end, hrun, hst] at hres
  · intro M sess fe out h hres
    unfold oxr_session_frame_end at h
    repeat' split at h
    all_goals
      first
      | exact Option.noConfusion h
      | (injection h with h; subst h; simp_all [oxr_session_success_result])

/-- Witness for the amended C4 theorem: the non-headless part at the
concrete stopping session `sessStop`, the endFrame part at `sessF` with
display time `0` (the call fails, so the success implication holds and
is exercised vacuously here; the end part is exercised for real). -/
theorem frame_started_false_after_frame_completion_witness :
    ((oxr_session_end sessStop).res = XrResult.SUCCESS →
      (oxr_session_end sessStop).sess.frame_started = false) ∧
    (∀ out : StepOut,
      oxr_session_frame_end M0 sessF
          { displayTime := 1, environmentBlendMode := .OPAQUE,
            layerCount := 0, layers := none } = some out →
      out.res = XrResult.SUCCESS →
      out.sess.frame_started = false) :=
  ⟨fun hres =>
    (frame_started_false_after_frame_completion.1 sessStop (by decide) hres).1,
   fun out h hres =>
    frame_started_false_after_frame_completion.2 M0 sessF _ out h hres⟩

/-- A concrete frame-end request with non-positive display time. -/
def feT0 : XrFrameEndInfo :=
  { displayTime := 0, environmentBlendMode := .OPAQUE, layerCount := 0,
    layers := none }

/-- C5 counterexample: on a session that is not running, `endFrame` with
`displayTime = 0` fails with SessionNotRunning, not with the
time-validity error — the running and frame-open checks precede the
display-time check, so the claim's "regardless of session state, whether
a frame is open" is false. -/
theorem frame_end_time_check_not_first :
    feT0.displayTime ≤ 0 ∧
    oxr_session_frame_end M0 sessR feT0 =
      some { res := .ERROR_SESSION_NOT_RUNNING, sess := sessR, notifs := [],
             comp := [] } ∧
    XrResult.ERROR_SESSION_NOT_RUNNING ≠ XrResult.ERROR_TIME_INVALID := by
  decide

/-- C5 (amended): on every running session with an open frame, `endFrame`
with `displayTime ≤ 0` fails with the time-validity error, before the
headless early-out and the blend-mode and layer checks — regardless of
compositor presence, blend mode, or layer content. -/
theorem frame_end_time_invalid_spec (M : MathOps) (sess : oxr_session)
    (fe : XrFrameEndInfo) (hrun : is_running sess.state = true)
    (hf : sess.frame_started = true) (ht : fe.displayTime ≤ 0) :
    oxr_session_frame_end M sess fe =
      some { res := .ERROR_TIME_INVALID, sess := sess, notifs := [],
             comp := [] } := by
  simp [oxr_session_frame_end, hrun, hf, ht]

/-- Witness for the amended C5 theorem at the concrete session `sessF`
and request `feT0`. -/
theorem frame_end_time_invalid_spec_witness :
    oxr_session_frame_end M0 sessF feT0 =
      some { res := .ERROR_TIME_INVALID, sess := sessF, notifs := [],
             comp := [] } :=
  frame_end_time_invalid_spec M0 sessF feT0 (by decide) (by decide) (by decide)

/-- C6: with a running, non-headless session, an open frame and positive
display time: an unrecognized blend mode fails with the validation
error; a recognized blend mode absent from the device's advertised mask
fails with the blend-mode-unsupported error (both for every layer list,
`layerCount = 0` included, since the blend checks precede the layer-count
check); when the blend mode passes both checks, a zero-count layer list
discards the frame at the compositor and succeeds. -/
theorem frame_end_blend_mode_spec (M : MathOps) (sess : oxr_session)
    (fe : XrFrameEndInfo) (hrun : is_running sess.state = true)
    (hf : sess.frame_started = true) (hh : sess.headless = false)
    (ht : 0 < fe.displayTime) :
    (oxr_blend_mode_to_xrt fe.environmentBlendMode = 0 →
      oxr_session_frame_end M sess fe =
        some { res := .ERROR_VALIDATION_FAILURE, sess := sess, notifs := [],
               comp := [] }) ∧
    (oxr_blend_mode_to_xrt fe.environmentBlendMode ≠ 0 →
      oxr_blend_mode_to_xrt fe.environmentBlendMode &&& sess.hmd_blend_mode
        = 0 →
      oxr_session_frame_end M sess fe =
        some { res := .ERROR_ENVIRONMENT_BLEND_MODE_UNSUPPORTED, sess := sess,
               notifs := [], comp := [] }) ∧
    (oxr_blend_mode_to_xrt fe.environmentBlendMode ≠ 0 →
      oxr_blend_mode_to_xrt fe.environmentBlendMode &&& sess.hmd_blend_mode
        ≠ 0 →
      fe.layerCount = 0 →
      oxr_session_frame_end M sess fe =
        some { res := XrResult.SUCCESS,
               sess := { sess with frame_started := false }, notifs := [],
               comp := [CompEvent.discardFrame] }) := by
  have ht' : ¬ fe.displayTime ≤ 0 := not_le.mpr ht
  refine ⟨?_, ?_, ?_⟩
  · intro h0
    simp [oxr_session_frame_end, hrun, hf, hh, ht', h0]
  · intro h0 hm
    simp [oxr_session_frame_end, hrun, hf, hh, ht', h0, hm]
  · intro h0 hm hc
    simp [oxr_session_frame_end, hrun, hf, hh, ht', h0, hm, hc,
      oxr_session_success_result]

/-- A concrete frame-end request with an unrecognized blend mode and an
empty layer list. -/
def feU : XrFrameEndInfo :=
  { displayTime := 1, environmentBlendMode := .UNKNOWN 99, layerCount := 0,
    layers := none }

/-- Witness for the C6 theorem at the concrete session `sessF` and the
request `feU` (unknown blend mode, zero layers). -/
theorem frame_end_blend_mode_spec_witness :
    (oxr_blend_mode_to_xrt feU.environmentBlendMode = 0 →
      oxr_session_frame_end M0 sessF feU =
        some { res := .ERROR_VALIDATION_FAILURE, sess := sessF, notifs := [],
               comp := [] }) ∧
    (oxr_blend_mode_to_xrt feU.environmentBlendMode ≠ 0 →
      oxr_blend_mode_to_xrt feU.environmentBlendMode &&& sessF.hmd_blend_mode
        = 0 →
      oxr_session_frame_end M0 sessF feU =
        some { res := .ERROR_ENVIRONMENT_BLEND_MODE_UNSUPPORTED, sess := sessF,
               notifs := [], comp := [] }) ∧
    (oxr_blend_mode_to_xrt feU.environmentBlendMode ≠ 0 →
      oxr_blend_mode_to_xrt feU.environmentBlendMode &&& sessF.hmd_blend_mode
        ≠ 0 →
      feU.layerCount = 0 →
      oxr_session_frame_end M0 sessF feU =
        some { res := XrResult.SUCCESS,
               sess := { sessF with frame_started := false }, notifs := [],
               comp := [CompEvent.discardFrame] }) :=
  frame_end_blend_mode_spec M0 sessF feU (by decide) (by decide) (by decide)
    (by decide)

/-- A concrete quad layer with a null space handle and a null swapchain
handle. -/
def quadNullBoth : XrCompositionLayerQuad :=
  { space := none, pose := default,
    subImage := { swapchain := none, imageRect_offset_x := 0,
                  imageRect_offset_y := 0, imageArrayIndex := 0 } }

/-- C8 counterexample: a quad layer whose space handle is null but whose
swapchain handle is also null is rejected with `XR_ERROR_LAYER_INVALID`,
not with the ValidationFailure kind — `verify_quad_layer` checks the
swapchain for null before calling `verify_space`, so the claimed
"ValidationFailure for all values of the layer's other fields" fails. -/
theorem verify_quad_null_space_not_always_validation_failure :
    quadNullBoth.space = none ∧
    verify_quad_layer M0 quadNullBoth = XrResult.ERROR_LAYER_INVALID ∧
    XrResult.ERROR_LAYER_INVALID ≠ XrResult.ERROR_VALIDATION_FAILURE := by
  decide

/-- C8 (amended): a stereo-projection layer with a null space handle is
rejected with the ValidationFailure kind whatever its other fields; a
quad layer with a null space handle is rejected with ValidationFailure
whenever its swapchain handle is non-null, while a null swapchain is
rejected first with LayerInvalid. -/
theorem verify_null_space_rejected (M : MathOps)
    (quad : XrCompositionLayerQuad) (proj : XrCompositionLayerProjection) :
    (quad.space = none → quad.subImage.swapchain ≠ none →
      verify_quad_layer M quad = XrResult.ERROR_VALIDATION_FAILURE) ∧
    (quad.subImage.swapchain = none →
      verify_quad_layer M quad = XrResult.ERROR_LAYER_INVALID) ∧
    (proj.space = none →
      verify_projection_layer M proj =
        some XrResult.ERROR_VALIDATION_FAILURE) := by
  refine ⟨?_, ?_, ?_⟩
  · intro hs hsc
    obtain ⟨sc, hsc'⟩ := Option.ne_none_iff_exists'.mp hsc
    simp [verify_quad_layer, hsc', verify_space, hs]
  · intro hsc
    simp [verify_quad_layer, hsc]
  · intro hs
    simp [verify_projection_layer, verify_space, hs]

/-- A concrete projection layer with a null space handle. -/
def projNullSpace : XrCompositionLayerProjection :=
  { space := none, views := [] }

/-- Witness for the amended C8 theorem at `quadNullBoth` (null swapchain
branch) and `projNullSpace`; the non-null-swapchain branch holds
vacuously at this quad. -/
theorem verify_null_space_rejected_witness :
    (quadNullBoth.space = none → quadNullBoth.subImage.swapchain ≠ none →
      verify_quad_layer M0 quadNullBoth = XrResult.ERROR_VALIDATION_FAILURE) ∧
    (quadNullBoth.subImage.swapchain = none →
      verify_quad_layer M0 quadNullBoth = XrResult.ERROR_LAYER_INVALID) ∧
    (projNullSpace.space = none →
      verify_projection_layer M0 projNullSpace =
        some XrResult.ERROR_VALIDATION_FAILURE) :=
  verify_null_space_rejected M0 quadNullBoth projNullSpace

/-- C9: when the relation sample carries the valid-angular-velocity
flag, `get_view_pose_at` keeps the sample position unchanged and replaces
the orientation by the sample orientation integrated by the angular
velocity over `(time - sample_timestamp) + static_prediction_s` when
dynamic prediction is enabled, else over `static_prediction_s` alone;
without the flag the whole sample pose is returned unchanged. -/
theorem get_view_pose_at_spec (M : MathOps) (dp : Bool)
    (sess : oxr_session) (at_time : Int) (relation : xrt_space_relation)
    (timestamp : Int) :
    (relation.angular_velocity_valid = true →
      (oxr_session_get_view_pose_at M dp sess at_time relation
          timestamp).position = relation.pose.position ∧
      (oxr_session_get_view_pose_at M dp sess at_time relation
          timestamp).orientation =
        M.math_quat_integrate_velocity relation.pose.orientation
          relation.angular_velocity
          (if dp then
            M.time_ns_to_s (at_time - timestamp) + sess.static_prediction_s
          else sess.static_prediction_s)) ∧
    (relation.angular_velocity_valid = false →
      oxr_session_get_view_pose_at M dp sess at_time relation timestamp =
        relation.pose) := by
  constructor <;> intro h <;>
    simp [oxr_session_get_view_pose_at, h]

/-- A concrete relation sample with a valid angular velocity. -/
def relV : xrt_space_relation :=
  { pose := { orientation := { x := 0, y := 0, z := 0, w := 1 },
              position := { x := 1, y := 2, z := 3 } },
    angular_velocity := { x := 1, y := 0, z := 0 },
    angular_velocity_valid := true }

/-- Witness for the C9 theorem at the concrete collaborators `M0`,
dynamic prediction on, session `sessF`, sample `relV` taken at
timestamp `10` and queried at time `30`. -/
theorem get_view_pose_at_spec_witness :
    (relV.angular_velocity_valid = true →
      (oxr_session_get_view_pose_at M0 true sessF 30 relV 10).position =
        relV.pose.position ∧
      (oxr_session_get_view_pose_at M0 true sessF 30 relV 10).orientation =
        M0.math_quat_integrate_velocity relV.pose.orientation
          relV.angular_velocity
          (if true then
            M0.time_ns_to_s (30 - 10) + sessF.static_prediction_s
          else sessF.static_prediction_s)) ∧
    (relV.angular_velocity_valid = false →
      oxr_session_get_view_pose_at M0 true sessF 30 relV 10 =
        relV.pose) :=
  get_view_pose_at_spec M0 true sessF 30 relV 10

/-- Helper: a projection view whose swapchain handle is non-null always
verifies to a definite result, never to the undefined outcome. -/
lemma verify_projection_view_isSome (M : MathOps)
    (v : XrCompositionLayerProjectionView)
    (hv : v.subImage.swapchain ≠ none) :
    verify_projection_view M v ≠ none := by
  obtain ⟨sc, hsc⟩ := Option.ne_none_iff_exists'.mp hv
  simp only [verify_projection_view, hsc]
  repeat' split
  all_goals simp

/-- Helper: the projection-view loop is well-defined whenever every view
in the list has a non-null swapchain handle. -/
lemma verify_projection_views_ne_none (M : MathOps) :
    ∀ vs : List XrCompositionLayerProjectionView,
      (∀ w ∈ vs, w.subImage.swapchain ≠ none) →
      verify_projection_views M vs ≠ none := by
  intro vs
  induction vs with
  | nil =>
    intro _
    simp [verify_projection_views]
  | cons v tl ih =>
    intro hvs
    have hv := verify_projection_view_isSome M v
      (hvs v (List.mem_cons_self v tl))
    obtain ⟨r, hr⟩ := Option.ne_none_iff_exists'.mp hv
    unfold verify_projection_views
    rw [hr]
    by_cases hrs : r = XrResult.SUCCESS
    · simpa [hrs] using ih fun w hw => hvs w (List.mem_cons_of_mem v hw)
    · simp [hrs]

/-- C10: stereo-projection validation never null-checks a view's
swapchain handle: a view with valid pose fields and a null swapchain
makes the per-view check undefined (`none`) instead of producing any
error; the projection verifier is well-defined whenever every view's
swapchain is non-null; and an undefined verification outcome propagates
to the whole frame-end call. -/
theorem projection_view_null_swapchain_unchecked (M : MathOps)
    (v : XrCompositionLayerProjectionView)
    (proj : XrCompositionLayerProjection) (sess : oxr_session)
    (fe : XrFrameEndInfo) (layers : List (Option XrCompositionLayer)) :
    (M.math_quat_validate v.pose.orientation = true →
      M.math_vec3_validate v.pose.position = true →
      v.subImage.swapchain = none →
      verify_projection_view M v = none) ∧
    ((∀ w ∈ proj.views, w.subImage.swapchain ≠ none) →
      verify_projection_layer M proj ≠ none) ∧
    (fe.layers = some layers → is_running sess.state = true →
      sess.frame_started = true → 0 < fe.displayTime →
      sess.headless = false →
      oxr_blend_mode_to_xrt fe.environmentBlendMode ≠ 0 →
      oxr_blend_mode_to_xrt fe.environmentBlendMode &&&
        sess.hmd_blend_mode ≠ 0 →
      fe.layerCount ≠ 0 →
      verify_layers M layers = none →
      oxr_session_frame_end M sess fe = none) := by
  refine ⟨?_, ?_, ?_⟩
  · intro h1 h2 h3
    simp [verify_projection_view, h1, h2, h3]
  · intro hall
    simp only [verify_projection_layer]
    split
    · simp
    · split
      · simp
      · exact verify_projection_views_ne_none M proj.views hall
  · intro hl hrun hf ht hh hb0 hbm hc hv
    simp [oxr_session_frame_end, hl, hrun, hf, hh, not_le.mpr ht, hb0, hbm,
      hc, hv]

/-- A concrete projection view with valid pose fields and a null
swapchain handle. -/
def viewNullSC : XrCompositionLayerProjectionView :=
  { pose := default, fov := default,
    subImage := { swapchain := none, imageRect_offset_x := 0,
                  imageRect_offset_y := 0, imageArrayIndex := 0 } }

/-- A concrete projection view with a released, in-bounds swapchain. -/
def viewOkSC : XrCompositionLayerProjectionView :=
  { pose := default, fov := default,
    subImage := { swapchain := some { released_index := 0, num_images := 3 },
                  imageRect_offset_x := 0, imageRect_offset_y := 0,
                  imageArrayIndex := 0 } }

/-- A concrete projection layer whose two views both have non-null
swapchains. -/
def projOk : XrCompositionLayerProjection :=
  { space := some (), views := [viewOkSC, viewOkSC] }

/-- A concrete projection layer whose first view has a null swapchain. -/
def projBad : XrCompositionLayerProjection :=
  { space := some (), views := [viewNullSC, viewOkSC] }

/-- A concrete frame-end request carrying the projection layer with a
null view swapchain. -/
def feBad : XrFrameEndInfo :=
  { displayTime := 1, environmentBlendMode := .OPAQUE, layerCount := 1,
    layers := some [some (XrCompositionLayer.projection projBad)] }

/-- Witness for the C10 theorem at the concrete view `viewNullSC`,
layer `projOk`, session `sessF` and request `feBad`. -/
theorem projection_view_null_swapchain_unchecked_witness :
    (M0.math_quat_validate viewNullSC.pose.orientation = true →
      M0.math_vec3_validate viewNullSC.pose.position = true →
      viewNullSC.subImage.swapchain = none →
      verify_projection_view M0 viewNullSC = none) ∧
    ((∀ w ∈ projOk.views, w.subImage.swapchain ≠ none) →
      verify_projection_layer M0 projOk ≠ none) ∧
    (feBad.layers = some [some (XrCompositionLayer.projection projBad)] →
      is_running sessF.state = true → sessF.frame_started = true →
      0 < feBad.displayTime → sessF.headless = false →
      oxr_blend_mode_to_xrt feBad.environmentBlendMode ≠ 0 →
      oxr_blend_mode_to_xrt feBad.environmentBlendMode &&&
        sessF.hmd_blend_mode ≠ 0 →
      feBad.layerCount ≠ 0 →
      verify_layers M0 [some (XrCompositionLayer.projection projBad)] =
        none →
      oxr_session_frame_end M0 sessF feBad = none) :=
  projection_view_null_swapchain_unchecked M0 viewNullSC projOk sessF feBad
    [some (XrCompositionLayer.projection projBad)]

/-- Helper for the all-validate-then-all-submit property: when every
layer before some failing layer verifies successfully, the whole
verification pass returns exactly that first failing layer's error. -/
lemma verify_layers_first_failure (M : MathOps)
    (layer : XrCompositionLayer) (e : XrResult)
    (he : verify_layer M layer = some e) (hne : e ≠ XrResult.SUCCESS)
    (post : List (Option XrCompositionLayer)) :
    ∀ pre : List (Option XrCompositionLayer),
      (∀ l ∈ pre, ∃ x, l = some x ∧
        verify_layer M x = some XrResult.SUCCESS) →
      verify_layers M (pre ++ some layer :: post) = some e := by
  intro pre
  induction pre with
  | nil =>
    intro _
    simp [verify_layers, he, hne]
  | cons hd tl ih =>
    intro hpre
    obtain ⟨x, rfl, hvx⟩ := hpre hd (List.mem_cons_self hd tl)
    rw [List.cons_append]
    simp only [verify_layers, hvx, if_pos]
    exact ih fun l hl => hpre l (List.mem_cons_of_mem _ hl)

/-- C1: for a frame-end call that reaches the layer pass (running
session, open frame, positive display time, compositor present, blend
mode recognized and supported, non-zero layer count): if verification of
the list yields any error, the whole call returns that error and issues
no compositor call at all (in particular no layer is submitted); if every
layer verifies, the call succeeds and the compositor trace is exactly one
layer-begin, the per-layer submissions in original order, and one
layer-commit; and the error returned is the first failing layer's
specific error whenever all layers before it pass. -/
theorem frame_end_validate_all_then_submit_all (M : MathOps)
    (sess : oxr_session) (fe : XrFrameEndInfo)
    (layers : List (Option XrCompositionLayer))
    (hl : fe.layers = some layers) (hrun : is_running sess.state = true)
    (hf : sess.frame_started = true) (hh : sess.headless = false)
    (ht : 0 < fe.displayTime)
    (hb0 : oxr_blend_mode_to_xrt fe.environmentBlendMode ≠ 0)
    (hbm : oxr_blend_mode_to_xrt fe.environmentBlendMode &&&
      sess.hmd_blend_mode ≠ 0)
    (hc : fe.layerCount ≠ 0) :
    (∀ r : XrResult, verify_layers M layers = some r →
      r ≠ XrResult.SUCCESS →
      oxr_session_frame_end M sess fe =
        some { res := r, sess := sess, notifs := [], comp := [] }) ∧
    (verify_layers M layers = some XrResult.SUCCESS →
      oxr_session_frame_end M sess fe =
        some { res := XrResult.SUCCESS,
               sess := { sess with frame_started := false }, notifs := [],
               comp := CompEvent.layerBegin
                   (oxr_blend_mode_to_xrt fe.environmentBlendMode) ::
                 (submit_layers M
                     (M.math_pose_invert sess.tracking_origin_offset)
                     layers ++ [CompEvent.layerCommit]) }) ∧
    (∀ (pre post : List (Option XrCompositionLayer))
        (layer : XrCompositionLayer) (e : XrResult),
      layers = pre ++ some layer :: post →
      (∀ l ∈ pre, ∃ x, l = some x ∧
        verify_layer M x = some XrResult.SUCCESS) →
      verify_layer M layer = some e → e ≠ XrResult.SUCCESS →
      oxr_session_frame_end M sess fe =
        some { res := e, sess := sess, notifs := [], comp := [] }) := by
  have ht' : ¬ fe.displayTime ≤ 0 := not_le.mpr ht
  refine ⟨?_, ?_, ?_⟩
  · intro r hv hr
    simp [oxr_session_frame_end, hl, hrun, hf, hh, ht', hb0, hbm, hc, hv, hr]
  · intro hv
    simp [oxr_session_frame_end, hl, hrun, hf, hh, ht', hb0, hbm, hc, hv,
      oxr_session_success_result]
  · intro pre post layer e hsplit hpre he hne
    subst hsplit
    have hv := verify_layers_first_failure M layer e he hne post pre hpre
    simp [oxr_session_frame_end, hl, hrun, hf, hh, ht', hb0, hbm, hc, hv,
      hne]

/-- A concrete quad layer that passes every validation check. -/
def quadOk : XrCompositionLayerQuad :=
  { space := some (), pose := default,
    subImage := { swapchain := some { released_index := 0, num_images := 3 },
                  imageRect_offset_x := 0, imageRect_offset_y := 0,
                  imageArrayIndex := 0 } }

/-- A concrete frame-end request with one fully valid quad layer. -/
def feOk : XrFrameEndInfo :=
  { displayTime := 1, environmentBlendMode := .OPAQUE, layerCount := 1,
    layers := some [some (XrCompositionLayer.quad quadOk)] }

/-- Witness for the C1 theorem at the concrete session `sessF` and the
request `feOk`, whose single quad layer verifies successfully. -/
theorem frame_end_validate_all_then_submit_all_witness :
    (∀ r : XrResult,
      verify_layers M0 [some (XrCompositionLayer.quad quadOk)] = some r →
      r ≠ XrResult.SUCCESS →
      oxr_session_frame_end M0 sessF feOk =
        some { res := r, sess := sessF, notifs := [], comp := [] }) ∧
    (verify_layers M0 [some (XrCompositionLayer.quad quadOk)] =
        some XrResult.SUCCESS →
      oxr_session_frame_end M0 sessF feOk =
        some { res := XrResult.SUCCESS,
               sess := { sessF with frame_started := false }, notifs := [],
               comp := CompEvent.layerBegin
                   (oxr_blend_mode_to_xrt feOk.environmentBlendMode) ::
                 (submit_layers M0
                     (M0.math_pose_invert sessF.tracking_origin_offset)
                     [some (XrCompositionLayer.quad quadOk)] ++
                   [CompEvent.layerCommit]) }) ∧
    (∀ (pre post : List (Option XrCompositionLayer))
        (layer : XrCompositionLayer) (e : XrResult),
      [some (XrCompositionLayer.quad quadOk)] = pre ++ some layer :: post →
      (∀ l ∈ pre, ∃ x, l = some x ∧
        verify_layer M0 x = some XrResult.SUCCESS) →
      verify_layer M0 layer = some e → e ≠ XrResult.SUCCESS →
      oxr_session_frame_end M0 sessF feOk =
        some { res := e, sess := sessF, notifs := [], comp := [] }) :=
  frame_end_validate_all_then_submit_all M0 sessF feOk
    [some (XrCompositionLayer.quad quadOk)] (by decide) (by decide)
    (by decide) (by decide) (by decide) (by decide) (by decide) (by decide)
